import Mathlib

/-!
Verification of the numerically hard core of a generic linear-algebra and
projective-geometry library (matrices, rotations, camera projections).

The scalar field of the library is generic over integer and floating-point
types; the embedding instantiates it with the exact field of rational numbers,
so that every arithmetic identity the library relies on is stated exactly.
The two idealizations forced by this choice are:

* the float capability function `sqrt` has no total exact counterpart on the
  rationals, so every operation that calls it takes the square-root function
  as an explicit parameter `sqrt : ℚ → ℚ`; theorems either hold for every
  such function or carry a hypothesis saying `sqrt` is correct at the
  (perfect-square) radicands actually used, and `Rat.sqrt` discharges those
  hypotheses on concrete inputs;
* the approximate-equality tests (`ulps_eq` with its default tolerance of a
  few ulps) are idealized to exact equality of the compared scalars.

Code for points, projections and rotations is translated from
`src/point.rs`, `src/projection.rs` and `src/rotation.rs`.  The matrix,
vector, quaternion and angle modules of the crate are not part of the
source excerpt; their operations are modelled from the specification text
and are pinned down by the crate's own test suite (`tests/test_matrix.rs`)
where the expected matrices appear as literals.
-/

namespace SimpleCgmath

/-- Modelled from the spec: the crate's `Vector2<S>` (module `vector` absent
from the excerpt), a plain two-component aggregate of scalars. -/
structure Vector2 where
  x : ℚ
  y : ℚ
deriving DecidableEq

/-- Modelled from the spec: the crate's `Vector3<S>` (module `vector` absent
from the excerpt), a plain three-component aggregate of scalars. -/
structure Vector3 where
  x : ℚ
  y : ℚ
  z : ℚ
deriving DecidableEq

/-- Modelled from the spec: the crate's `Vector4<S>` (module `vector` absent
from the excerpt), a plain four-component aggregate of scalars. -/
structure Vector4 where
  x : ℚ
  y : ℚ
  z : ℚ
  w : ℚ
deriving DecidableEq

/-- The point type `Point2<S>` of `src/point.rs`. -/
structure Point2 where
  x : ℚ
  y : ℚ
deriving DecidableEq

/-- The point type `Point3<S>` of `src/point.rs`. -/
structure Point3 where
  x : ℚ
  y : ℚ
  z : ℚ
deriving DecidableEq

/-- Modelled from the spec: the dot product supplied by the absent `vector`
module (spec section 1 lists it among the mechanical per-component
operations). -/
def Vector3.dot (a b : Vector3) : ℚ :=
  a.x * b.x + a.y * b.y + a.z * b.z

/-- Modelled from the spec: the cross product supplied by the absent `vector`
module, with the standard right-handed component formula. -/
def Vector3.cross (a b : Vector3) : Vector3 :=
  Vector3.mk (a.y * b.z - a.z * b.y) (a.z * b.x - a.x * b.z) (a.x * b.y - a.y * b.x)

/-- Modelled from the spec: `magnitude_squared`, the squared Euclidean length
used by `between_vectors` in `src/rotation.rs`. -/
def Vector3.magnitude_squared (v : Vector3) : ℚ :=
  v.dot v

/-- Modelled from the spec: componentwise division of a vector by a scalar,
backing the `Magnitude::normalize` default of `src/structure.rs`. -/
def Vector3.divScalar (v : Vector3) (k : ℚ) : Vector3 :=
  Vector3.mk (v.x / k) (v.y / k) (v.z / k)

/-- The `Magnitude::normalize` default method of `src/structure.rs`:
`self / self.magnitude()` with `magnitude = sqrt(self.dot(self))`.  The float
capability `sqrt` is passed explicitly. -/
def Vector3.normalize (sqrt : ℚ → ℚ) (v : Vector3) : Vector3 :=
  v.divScalar (sqrt (v.dot v))

/-- Modelled from the spec: the `unit_x` constant of the absent `vector`
module, the world X axis used by `between_vectors`. -/
def Vector3.unit_x : Vector3 := Vector3.mk 1 0 0

/-- Modelled from the spec: the `unit_y` constant of the absent `vector`
module, the world Y axis used by `between_vectors`. -/
def Vector3.unit_y : Vector3 := Vector3.mk 0 1 0

/-- Modelled from the spec: `Vector3::expand`, appending a fourth homogeneous
component (the absent `vector` module; the shape is pinned by the point
variant in `src/point.rs` and by `project_vector` in `src/projection.rs`). -/
def Vector3.expand (v : Vector3) (w : ℚ) : Vector4 :=
  Vector4.mk v.x v.y v.z w

/-- Modelled from the spec: `Vector4::contract`, dropping the homogeneous
component (the absent `vector` module). -/
def Vector4.contract (v : Vector4) : Vector3 :=
  Vector3.mk v.x v.y v.z

/-- Modelled from the spec: componentwise multiplication of a four-component
vector by a scalar, used by `project_vector` in `src/projection.rs`. -/
def Vector4.mulScalar (v : Vector4) (k : ℚ) : Vector4 :=
  Vector4.mk (v.x * k) (v.y * k) (v.z * k) (v.w * k)

/-- Modelled from the spec: componentwise multiplication of a three-component
vector by a scalar, used by `unproject_vector` in `src/projection.rs`. -/
def Vector3.mulScalar (v : Vector3) (k : ℚ) : Vector3 :=
  Vector3.mk (v.x * k) (v.y * k) (v.z * k)

/-- Modelled from the spec: `Vector2::contract` of the absent `vector`
module, dropping the homogeneous component of a `Vector3`. -/
def Vector3.contract (v : Vector3) : Vector2 :=
  Vector2.mk v.x v.y

/-- Modelled from the spec: componentwise multiplication of a two-component
vector by a scalar. -/
def Vector2.mulScalar (v : Vector2) (k : ℚ) : Vector2 :=
  Vector2.mk (v.x * k) (v.y * k)

/-- `Point3::to_homogeneous` of `src/point.rs`: append a `w` component equal
to one. -/
def Point3.to_homogeneous (p : Point3) : Vector4 :=
  Vector4.mk p.x p.y p.z 1

/-- `Point3::from_homogeneous` of `src/point.rs`: contract and multiply by
`1 / w`, with no guard against a zero `w`. -/
def Point3.from_homogeneous (vector : Vector4) : Point3 :=
  let e := vector.contract.mulScalar (1 / vector.w)
  Point3.mk e.x e.y e.z

/-- `Point2::to_homogeneous` of `src/point.rs`: append a `z` component equal
to one. -/
def Point2.to_homogeneous (p : Point2) : Vector3 :=
  Vector3.mk p.x p.y 1

/-- `Point2::from_homogeneous` of `src/point.rs`: contract and multiply by
`1 / z`, with no guard against a zero `z`. -/
def Point2.from_homogeneous (vector : Vector3) : Point2 :=
  let e := vector.contract.mulScalar (1 / vector.z)
  Point2.mk e.x e.y

/-- Modelled from the spec: the crate's `Quaternion<S>` (module `quaternion`
absent from the excerpt): a scalar part and a three-component vector part. -/
structure Quaternion where
  s : ℚ
  v : Vector3
deriving DecidableEq

/-- Modelled from the spec: `Quaternion::from_sv`, building a quaternion from
its scalar and vector parts. -/
def Quaternion.from_sv (s : ℚ) (v : Vector3) : Quaternion :=
  Quaternion.mk s v

/-- Modelled from the spec: `One::one()` for quaternions, the identity
rotation (unit scalar part, zero vector part). -/
def Quaternion.one : Quaternion :=
  Quaternion.from_sv 1 (Vector3.mk 0 0 0)

/-- Modelled from the spec: `Quaternion::magnitude_squared`, the squared
magnitude, sum of the squared scalar part and squared vector part. -/
def Quaternion.magnitude_squared (q : Quaternion) : ℚ :=
  q.s * q.s + q.v.dot q.v

/-- Modelled from the spec: componentwise division of a quaternion by a
scalar. -/
def Quaternion.divScalar (q : Quaternion) (k : ℚ) : Quaternion :=
  Quaternion.mk (q.s / k) (q.v.divScalar k)

/-- Modelled from the spec: `Quaternion::normalize`, division by the
magnitude `sqrt(magnitude_squared)`, following the `Magnitude::normalize`
default of `src/structure.rs`.  The claim sentence for `between_vectors`
requires the general-case quaternion to be "normalized before use". -/
def Quaternion.normalize (sqrt : ℚ → ℚ) (q : Quaternion) : Quaternion :=
  q.divScalar (sqrt q.magnitude_squared)

/-- `Rotation::between_vectors` for `Quaternion<S>`, translated from
`src/rotation.rs` lines 446-467.  The two `ulps_eq` tolerance tests are
idealized to exact equality; the float capability `sqrt` is an explicit
parameter. -/
def Quaternion.between_vectors (sqrt : ℚ → ℚ) (v1 v2 : Vector3) : Quaternion :=
  let k_cos_theta := v1.dot v2
  if k_cos_theta = 1 then
    Quaternion.one
  else
    let k := sqrt (v1.magnitude_squared * v2.magnitude_squared)
    if k_cos_theta / k = -1 then
      let orthogonal := v1.cross Vector3.unit_x
      let orthogonal2 :=
        if orthogonal.magnitude_squared = 0 then v1.cross Vector3.unit_y else orthogonal
      Quaternion.from_sv 0 (orthogonal2.normalize sqrt)
    else
      (Quaternion.from_sv (k + k_cos_theta) (v1.cross v2)).normalize sqrt

/-- The three-case procedure exactly as the claim words it, for comparison
with the source translation `Quaternion.between_vectors`: the cases are
selected by the normalized cosine `cosθ = normalize(v1) · normalize(v2)`,
the opposite-direction case uses the axis `v1 × x̂` falling back to
`v1 × ŷ`, and the general case is `from_sv(|v1||v2| + v1·v2, v1×v2)`
normalized. -/
def betweenVectorsClaim (sqrt : ℚ → ℚ) (v1 v2 : Vector3) : Quaternion :=
  let cosTheta := (v1.normalize sqrt).dot (v2.normalize sqrt)
  if cosTheta = 1 then
    Quaternion.one
  else if cosTheta = -1 then
    let orthogonal := v1.cross Vector3.unit_x
    let orthogonal2 :=
      if orthogonal.magnitude_squared = 0 then v1.cross Vector3.unit_y else orthogonal
    Quaternion.from_sv 0 (orthogonal2.normalize sqrt)
  else
    let k := sqrt v1.magnitude_squared * sqrt v2.magnitude_squared
    (Quaternion.from_sv (k + v1.dot v2) (v1.cross v2)).normalize sqrt

/-- Modelled from the spec: the crate's `Matrix1x1<S>` (module `matrix`
absent from the excerpt), the one-entry square matrix of spec section
4.1. -/
structure Matrix1x1 where
  c0r0 : ℚ
deriving DecidableEq

/-- Modelled from the spec: the 1x1 determinant is the single entry (spec
section 4.1). -/
def Matrix1x1.determinant (m : Matrix1x1) : ℚ :=
  m.c0r0

/-- Modelled from the spec: `is_invertible` for 1x1 matrices, the exact zero
test on the determinant. -/
def Matrix1x1.is_invertible (m : Matrix1x1) : Bool :=
  m.determinant != 0

/-- Modelled from the spec: `inverse` for 1x1 matrices: no result exactly
when the determinant is exactly zero, otherwise `(1/det) * adjugate` with
the trivial unit adjugate. -/
def Matrix1x1.inverse (m : Matrix1x1) : Option Matrix1x1 :=
  let det := m.determinant
  if det = 0 then
    none
  else
    some (Matrix1x1.mk (1 / det))

/-- Modelled from the spec: the crate's column-major `Matrix2x2<S>` (module
`matrix` absent from the excerpt).  Field `cIrJ` is the entry in column `I`,
row `J`; the `new` constructor of the source takes the entries in this
column-major order. -/
structure Matrix2x2 where
  c0r0 : ℚ
  c0r1 : ℚ
  c1r0 : ℚ
  c1r1 : ℚ
deriving DecidableEq

/-- Modelled from the spec: the 2x2 determinant `ad − bc` (spec section 4.1),
pinned by the triangular-determinant tests of `tests/test_matrix.rs`. -/
def Matrix2x2.determinant (m : Matrix2x2) : ℚ :=
  m.c0r0 * m.c1r1 - m.c0r1 * m.c1r0

/-- Modelled from the spec: `is_invertible`, true iff the determinant is not
equal to the zero scalar — an exact zero test, not an epsilon test (spec
sections 4.1 and 7). -/
def Matrix2x2.is_invertible (m : Matrix2x2) : Bool :=
  m.determinant != 0

/-- Modelled from the spec: componentwise scaling of a 2x2 matrix. -/
def Matrix2x2.mulScalar (m : Matrix2x2) (k : ℚ) : Matrix2x2 :=
  Matrix2x2.mk (m.c0r0 * k) (m.c0r1 * k) (m.c1r0 * k) (m.c1r1 * k)

/-- Modelled from the spec: `inverse`, returning no result exactly when the
determinant is exactly zero, and otherwise `(1/det) * adjugate` (spec
section 4.1); the adjugate of a 2x2 matrix swaps the diagonal and negates
the off-diagonal, as pinned by `test_matrix_inverse`. -/
def Matrix2x2.inverse (m : Matrix2x2) : Option Matrix2x2 :=
  let det := m.determinant
  if det = 0 then
    none
  else
    some ((Matrix2x2.mk m.c1r1 (-m.c0r1) (-m.c1r0) m.c0r0).mulScalar (1 / det))

/-- Modelled from the spec: `Matrix2::from_angle`, the column-major 2x2
rotation matrix `[[cos θ, sin θ], [−sin θ, cos θ]]` (spec section 4.2).  The
sine and cosine of the angle are supplied by the external angle collaborator
and appear here as explicit scalar parameters. -/
def Matrix2x2.from_angle (sinAngle cosAngle : ℚ) : Matrix2x2 :=
  Matrix2x2.mk cosAngle sinAngle (-sinAngle) cosAngle

/-- Modelled from the spec: the crate's column-major `Matrix3x3<S>` (module
`matrix` absent from the excerpt). -/
structure Matrix3x3 where
  c0r0 : ℚ
  c0r1 : ℚ
  c0r2 : ℚ
  c1r0 : ℚ
  c1r1 : ℚ
  c1r2 : ℚ
  c2r0 : ℚ
  c2r1 : ℚ
  c2r2 : ℚ
deriving DecidableEq

/-- Modelled from the spec: the 3x3 determinant as the standard three-term
cofactor sum (spec section 4.1). -/
def Matrix3x3.determinant (m : Matrix3x3) : ℚ :=
  m.c0r0 * (m.c1r1 * m.c2r2 - m.c1r2 * m.c2r1)
    - m.c1r0 * (m.c0r1 * m.c2r2 - m.c0r2 * m.c2r1)
    + m.c2r0 * (m.c0r1 * m.c1r2 - m.c0r2 * m.c1r1)

/-- Modelled from the spec: `is_invertible` for 3x3 matrices, the same exact
zero test on the determinant. -/
def Matrix3x3.is_invertible (m : Matrix3x3) : Bool :=
  m.determinant != 0

/-- Modelled from the spec: componentwise scaling of a 3x3 matrix. -/
def Matrix3x3.mulScalar (m : Matrix3x3) (k : ℚ) : Matrix3x3 :=
  Matrix3x3.mk (m.c0r0 * k) (m.c0r1 * k) (m.c0r2 * k)
    (m.c1r0 * k) (m.c1r1 * k) (m.c1r2 * k)
    (m.c2r0 * k) (m.c2r1 * k) (m.c2r2 * k)

/-- Modelled from the spec: the adjugate of a 3x3 matrix, the transpose of
its cofactor matrix (spec section 4.1 and glossary). -/
def Matrix3x3.adjugate (m : Matrix3x3) : Matrix3x3 :=
  Matrix3x3.mk
    (m.c1r1 * m.c2r2 - m.c1r2 * m.c2r1)
    (-(m.c0r1 * m.c2r2 - m.c0r2 * m.c2r1))
    (m.c0r1 * m.c1r2 - m.c0r2 * m.c1r1)
    (-(m.c1r0 * m.c2r2 - m.c1r2 * m.c2r0))
    (m.c0r0 * m.c2r2 - m.c0r2 * m.c2r0)
    (-(m.c0r0 * m.c1r2 - m.c0r2 * m.c1r0))
    (m.c1r0 * m.c2r1 - m.c1r1 * m.c2r0)
    (-(m.c0r0 * m.c2r1 - m.c0r1 * m.c2r0))
    (m.c0r0 * m.c1r1 - m.c0r1 * m.c1r0)

/-- Modelled from the spec: `inverse` for 3x3 matrices: no result exactly
when the determinant is exactly zero, otherwise `(1/det) * adjugate`. -/
def Matrix3x3.inverse (m : Matrix3x3) : Option Matrix3x3 :=
  let det := m.determinant
  if det = 0 then
    none
  else
    some (m.adjugate.mulScalar (1 / det))

/-- Modelled from the spec: `Matrix3::from_axis_angle`, Rodrigues' rotation
formula producing the 3x3 matrix from an assumed-unit axis and an angle
(spec section 4.2).  The sine and cosine of the angle are supplied by the
external angle collaborator and appear here as explicit scalar
parameters. -/
def Matrix3x3.from_axis_angle (ax ay az sinAngle cosAngle : ℚ) : Matrix3x3 :=
  let omc := 1 - cosAngle
  Matrix3x3.mk
    (cosAngle + omc * ax * ax) (omc * ax * ay + sinAngle * az) (omc * ax * az - sinAngle * ay)
    (omc * ax * ay - sinAngle * az) (cosAngle + omc * ay * ay) (omc * ay * az + sinAngle * ax)
    (omc * ax * az + sinAngle * ay) (omc * ay * az - sinAngle * ax) (cosAngle + omc * az * az)

/-- Modelled from the spec: the crate's column-major `Matrix4x4<S>` (module
`matrix` absent from the excerpt).  The `new` constructor of the source
takes the sixteen entries in column-major order, exactly the field order
here; `src/projection.rs` builds its closed-form inverse matrices through
this constructor. -/
structure Matrix4x4 where
  c0r0 : ℚ
  c0r1 : ℚ
  c0r2 : ℚ
  c0r3 : ℚ
  c1r0 : ℚ
  c1r1 : ℚ
  c1r2 : ℚ
  c1r3 : ℚ
  c2r0 : ℚ
  c2r1 : ℚ
  c2r2 : ℚ
  c2r3 : ℚ
  c3r0 : ℚ
  c3r1 : ℚ
  c3r2 : ℚ
  c3r3 : ℚ
deriving DecidableEq

/-- Modelled from the spec: matrix-times-vector for the column-major 4x4
matrix: row `r` of the result is the sum over columns `c` of
`M[c][r] * v[c]` (spec sections 3 and 4.1, column-major storage). -/
def Matrix4x4.mulVector4 (m : Matrix4x4) (v : Vector4) : Vector4 :=
  Vector4.mk
    (m.c0r0 * v.x + m.c1r0 * v.y + m.c2r0 * v.z + m.c3r0 * v.w)
    (m.c0r1 * v.x + m.c1r1 * v.y + m.c2r1 * v.z + m.c3r1 * v.w)
    (m.c0r2 * v.x + m.c1r2 * v.y + m.c2r2 * v.z + m.c3r2 * v.w)
    (m.c0r3 * v.x + m.c1r3 * v.y + m.c2r3 * v.z + m.c3r3 * v.w)

/-- Modelled from the spec: the 4x4 determinant by expansion via the six
2x2 minors of the bottom two rows combined with the 2x2 minors of the top
two rows (spec section 4.1), pinned by the triangular, repeated-column and
inverse tests of `tests/test_matrix.rs` lines 1930-2065. -/
def Matrix4x4.determinant (m : Matrix4x4) : ℚ :=
  (m.c0r0 * m.c1r1 - m.c1r0 * m.c0r1) * (m.c2r2 * m.c3r3 - m.c3r2 * m.c2r3)
    - (m.c0r0 * m.c2r1 - m.c2r0 * m.c0r1) * (m.c1r2 * m.c3r3 - m.c3r2 * m.c1r3)
    + (m.c0r0 * m.c3r1 - m.c3r0 * m.c0r1) * (m.c1r2 * m.c2r3 - m.c2r2 * m.c1r3)
    + (m.c1r0 * m.c2r1 - m.c2r0 * m.c1r1) * (m.c0r2 * m.c3r3 - m.c3r2 * m.c0r3)
    - (m.c1r0 * m.c3r1 - m.c3r0 * m.c1r1) * (m.c0r2 * m.c2r3 - m.c2r2 * m.c0r3)
    + (m.c2r0 * m.c3r1 - m.c3r0 * m.c2r1) * (m.c0r2 * m.c1r3 - m.c1r2 * m.c0r3)

/-- Modelled from the spec: `is_invertible` for 4x4 matrices, the same exact
zero test on the determinant. -/
def Matrix4x4.is_invertible (m : Matrix4x4) : Bool :=
  m.determinant != 0

/-- Modelled from the spec: componentwise scaling of a 4x4 matrix. -/
def Matrix4x4.mulScalar (m : Matrix4x4) (k : ℚ) : Matrix4x4 :=
  Matrix4x4.mk (m.c0r0 * k) (m.c0r1 * k) (m.c0r2 * k) (m.c0r3 * k)
    (m.c1r0 * k) (m.c1r1 * k) (m.c1r2 * k) (m.c1r3 * k)
    (m.c2r0 * k) (m.c2r1 * k) (m.c2r2 * k) (m.c2r3 * k)
    (m.c3r0 * k) (m.c3r1 * k) (m.c3r2 * k) (m.c3r3 * k)

/-- Modelled from the spec: the adjugate of a 4x4 matrix, the transpose of
its cofactor matrix (spec section 4.1 and glossary); the entry in column
`C`, row `R` is the signed 3x3 minor obtained by deleting row `C` and
column `R`. -/
def Matrix4x4.adjugate (m : Matrix4x4) : Matrix4x4 :=
  Matrix4x4.mk
    (m.c1r1 * (m.c2r2 * m.c3r3 - m.c3r2 * m.c2r3) - m.c2r1 * (m.c1r2 * m.c3r3 - m.c3r2 * m.c1r3)
      + m.c3r1 * (m.c1r2 * m.c2r3 - m.c2r2 * m.c1r3))
    (-(m.c0r1 * (m.c2r2 * m.c3r3 - m.c3r2 * m.c2r3) - m.c2r1 * (m.c0r2 * m.c3r3 - m.c3r2 * m.c0r3)
      + m.c3r1 * (m.c0r2 * m.c2r3 - m.c2r2 * m.c0r3)))
    (m.c0r1 * (m.c1r2 * m.c3r3 - m.c3r2 * m.c1r3) - m.c1r1 * (m.c0r2 * m.c3r3 - m.c3r2 * m.c0r3)
      + m.c3r1 * (m.c0r2 * m.c1r3 - m.c1r2 * m.c0r3))
    (-(m.c0r1 * (m.c1r2 * m.c2r3 - m.c2r2 * m.c1r3) - m.c1r1 * (m.c0r2 * m.c2r3 - m.c2r2 * m.c0r3)
      + m.c2r1 * (m.c0r2 * m.c1r3 - m.c1r2 * m.c0r3)))
    (-(m.c1r0 * (m.c2r2 * m.c3r3 - m.c3r2 * m.c2r3) - m.c2r0 * (m.c1r2 * m.c3r3 - m.c3r2 * m.c1r3)
      + m.c3r0 * (m.c1r2 * m.c2r3 - m.c2r2 * m.c1r3)))
    (m.c0r0 * (m.c2r2 * m.c3r3 - m.c3r2 * m.c2r3) - m.c2r0 * (m.c0r2 * m.c3r3 - m.c3r2 * m.c0r3)
      + m.c3r0 * (m.c0r2 * m.c2r3 - m.c2r2 * m.c0r3))
    (-(m.c0r0 * (m.c1r2 * m.c3r3 - m.c3r2 * m.c1r3) - m.c1r0 * (m.c0r2 * m.c3r3 - m.c3r2 * m.c0r3)
      + m.c3r0 * (m.c0r2 * m.c1r3 - m.c1r2 * m.c0r3)))
    (m.c0r0 * (m.c1r2 * m.c2r3 - m.c2r2 * m.c1r3) - m.c1r0 * (m.c0r2 * m.c2r3 - m.c2r2 * m.c0r3)
      + m.c2r0 * (m.c0r2 * m.c1r3 - m.c1r2 * m.c0r3))
    (m.c1r0 * (m.c2r1 * m.c3r3 - m.c3r1 * m.c2r3) - m.c2r0 * (m.c1r1 * m.c3r3 - m.c3r1 * m.c1r3)
      + m.c3r0 * (m.c1r1 * m.c2r3 - m.c2r1 * m.c1r3))
    (-(m.c0r0 * (m.c2r1 * m.c3r3 - m.c3r1 * m.c2r3) - m.c2r0 * (m.c0r1 * m.c3r3 - m.c3r1 * m.c0r3)
      + m.c3r0 * (m.c0r1 * m.c2r3 - m.c2r1 * m.c0r3)))
    (m.c0r0 * (m.c1r1 * m.c3r3 - m.c3r1 * m.c1r3) - m.c1r0 * (m.c0r1 * m.c3r3 - m.c3r1 * m.c0r3)
      + m.c3r0 * (m.c0r1 * m.c1r3 - m.c1r1 * m.c0r3))
    (-(m.c0r0 * (m.c1r1 * m.c2r3 - m.c2r1 * m.c1r3) - m.c1r0 * (m.c0r1 * m.c2r3 - m.c2r1 * m.c0r3)
      + m.c2r0 * (m.c0r1 * m.c1r3 - m.c1r1 * m.c0r3)))
    (-(m.c1r0 * (m.c2r1 * m.c3r2 - m.c3r1 * m.c2r2) - m.c2r0 * (m.c1r1 * m.c3r2 - m.c3r1 * m.c1r2)
      + m.c3r0 * (m.c1r1 * m.c2r2 - m.c2r1 * m.c1r2)))
    (m.c0r0 * (m.c2r1 * m.c3r2 - m.c3r1 * m.c2r2) - m.c2r0 * (m.c0r1 * m.c3r2 - m.c3r1 * m.c0r2)
      + m.c3r0 * (m.c0r1 * m.c2r2 - m.c2r1 * m.c0r2))
    (-(m.c0r0 * (m.c1r1 * m.c3r2 - m.c3r1 * m.c1r2) - m.c1r0 * (m.c0r1 * m.c3r2 - m.c3r1 * m.c0r2)
      + m.c3r0 * (m.c0r1 * m.c1r2 - m.c1r1 * m.c0r2)))
    (m.c0r0 * (m.c1r1 * m.c2r2 - m.c2r1 * m.c1r2) - m.c1r0 * (m.c0r1 * m.c2r2 - m.c2r1 * m.c0r2)
      + m.c2r0 * (m.c0r1 * m.c1r2 - m.c1r1 * m.c0r2))

/-- Modelled from the spec: `inverse` for 4x4 matrices: no result exactly
when the determinant is exactly zero, otherwise `(1/det) * adjugate`,
pinned by `test_matrix_inverse` and `test_noninvertible_matrix_returns_none`
of `tests/test_matrix.rs` lines 1930-2065. -/
def Matrix4x4.inverse (m : Matrix4x4) : Option Matrix4x4 :=
  let det := m.determinant
  if det = 0 then
    none
  else
    some (m.adjugate.mulScalar (1 / det))

/-- Modelled from the spec: `Matrix4x4::from_perspective`, the standard
off-center perspective projection matrix (spec section 4.3), pinned entry by
entry by `test_from_perspective` in `tests/test_matrix.rs`. -/
def Matrix4x4.from_perspective (left right bottom top near far : ℚ) : Matrix4x4 :=
  Matrix4x4.mk
    (2 * near / (right - left)) 0 0 0
    0 (2 * near / (top - bottom)) 0 0
    ((right + left) / (right - left)) ((top + bottom) / (top - bottom))
      (-(far + near) / (far - near)) (-1)
    0 0 (-(2 * far * near) / (far - near)) 0

/-- Modelled from the spec: `Matrix4x4::from_orthographic`, the standard
orthographic projection matrix (spec section 4.3), pinned entry by entry by
`test_from_orthographic` in `tests/test_matrix.rs` and by the literal-matrix
property of spec section 8. -/
def Matrix4x4.from_orthographic (left right bottom top near far : ℚ) : Matrix4x4 :=
  Matrix4x4.mk
    (2 / (right - left)) 0 0 0
    0 (2 / (top - bottom)) 0 0
    0 0 (-2 / (far - near)) 0
    (-(right + left) / (right - left)) (-(top + bottom) / (top - bottom))
      (-(far + near) / (far - near)) 1

/-- Modelled from the spec: `Matrix4x4::from_orthographic_fov`, which derives
the frustum width from the far plane as `far * tan(fovy / 2)`, the height as
`width / aspect`, splits both symmetrically about the axis, and delegates to
the plane-based orthographic constructor (spec section 4.3, pinned by
`test_from_orthographic_fov`).  The float capability `tan` is an explicit
parameter and the angle is already in radians. -/
def Matrix4x4.from_orthographic_fov (tan : ℚ → ℚ) (fovy aspect near far : ℚ) : Matrix4x4 :=
  let width := far * tan (fovy / 2)
  let height := width / aspect
  Matrix4x4.from_orthographic (-width / 2) (width / 2) (-height / 2) (height / 2) near far

/-- Modelled from the spec: `Matrix4x4::from_perspective_fov`, the symmetric
perspective matrix from a vertical field of view and aspect ratio, pinned by
`test_from_perspective_fov` in `tests/test_matrix.rs`. -/
def Matrix4x4.from_perspective_fov (tan : ℚ → ℚ) (fovy aspect near far : ℚ) : Matrix4x4 :=
  let range := tan (fovy / 2) * near
  Matrix4x4.mk
    (near / (range * aspect)) 0 0 0
    0 (near / range) 0 0
    0 0 (-(far + near) / (far - near)) (-1)
    0 0 (-(2 * far * near) / (far - near)) 0

/-- The `PerspectiveSpec<S>` of `src/projection.rs`: the six frustum plane
parameters. -/
structure PerspectiveSpec where
  left : ℚ
  right : ℚ
  bottom : ℚ
  top : ℚ
  near : ℚ
  far : ℚ
deriving DecidableEq

/-- The `PerspectiveFovSpec<S>` of `src/projection.rs`.  The `fovy` field of
the source is a `Radians<S>` wrapper around a scalar; the embedding stores
the underlying scalar directly. -/
structure PerspectiveFovSpec where
  fovy : ℚ
  aspect : ℚ
  near : ℚ
  far : ℚ
deriving DecidableEq

/-- The `OrthographicSpec<S>` of `src/projection.rs`. -/
structure OrthographicSpec where
  left : ℚ
  right : ℚ
  bottom : ℚ
  top : ℚ
  near : ℚ
  far : ℚ
deriving DecidableEq

/-- The `OrthographicFovSpec<S>` of `src/projection.rs`. -/
structure OrthographicFovSpec where
  fovy : ℚ
  aspect : ℚ
  near : ℚ
  far : ℚ
deriving DecidableEq

/-- The `From<PerspectiveFovSpec<S>> for PerspectiveSpec<S>` conversion of
`src/projection.rs` lines 188-202: `top = near * tan(fovy / two)` with
`two = one + one`, `bottom = -top`, `right = aspect * top`, `left = -right`,
`near` and `far` carried over.  The float capability `tan` is an explicit
parameter. -/
def PerspectiveSpec.fromFov (tan : ℚ → ℚ) (spec : PerspectiveFovSpec) : PerspectiveSpec :=
  let two : ℚ := 1 + 1
  let tan_fovy_div_2 := tan (spec.fovy / two)
  let top := spec.near * tan_fovy_div_2
  let bottom := -top
  let right := spec.aspect * top
  let left := -right
  PerspectiveSpec.mk left right bottom top spec.near spec.far

/-- The `PerspectiveProjection3<S>` of `src/projection.rs`: a spec paired
with its derived matrix, computed once at construction. -/
structure PerspectiveProjection3 where
  spec : PerspectiveSpec
  matrix : Matrix4x4
deriving DecidableEq

/-- `PerspectiveProjection3::new`: caches the matrix built from the spec. -/
def PerspectiveProjection3.new (spec : PerspectiveSpec) : PerspectiveProjection3 :=
  PerspectiveProjection3.mk spec
    (Matrix4x4.from_perspective spec.left spec.right spec.bottom spec.top spec.near spec.far)

/-- `PerspectiveProjection3::project_point` of `src/projection.rs` lines
380-383: through homogeneous coordinates and back. -/
def PerspectiveProjection3.project_point (self : PerspectiveProjection3) (point : Point3) : Point3 :=
  Point3.from_homogeneous (self.matrix.mulVector4 point.to_homogeneous)

/-- `PerspectiveProjection3::project_vector` of `src/projection.rs` lines
387-392: expand with `w = 1`, multiply, scale by `1 / w`, contract. -/
def PerspectiveProjection3.project_vector (self : PerspectiveProjection3) (vector : Vector3) : Vector3 :=
  let projected_vector := self.matrix.mulVector4 (vector.expand 1)
  let one_div_w := 1 / projected_vector.w
  (projected_vector.mulScalar one_div_w).contract

/-- The closed-form inverse matrix that `unproject_point` and
`unproject_vector` of `PerspectiveProjection3` build from the spec's six
parameters (`src/projection.rs` lines 399-433 and 440-477; the matrix is
identical in both). -/
def PerspectiveSpec.inverseMatrix (spec : PerspectiveSpec) : Matrix4x4 :=
  let two : ℚ := 1 + 1
  Matrix4x4.mk
    ((spec.right - spec.left) / (two * spec.near)) 0 0 0
    0 ((spec.top - spec.bottom) / (two * spec.near)) 0 0
    0 0 0 ((spec.near - spec.far) / (two * spec.far * spec.near))
    ((spec.left + spec.right) / (two * spec.near)) ((spec.bottom + spec.top) / (two * spec.near))
      (-1) ((spec.far + spec.near) / (two * spec.far * spec.near))

/-- `PerspectiveProjection3::unproject_point` of `src/projection.rs` lines
399-433: apply the closed-form inverse matrix built directly from the
spec's six parameters, through homogeneous coordinates. -/
def PerspectiveProjection3.unproject_point (self : PerspectiveProjection3) (point : Point3) : Point3 :=
  Point3.from_homogeneous (self.spec.inverseMatrix.mulVector4 point.to_homogeneous)

/-- `PerspectiveProjection3::unproject_vector` of `src/projection.rs` lines
440-477: the closed-form inverse matrix applied to the vector expanded with
`w = 1`, contracted, then scaled by `1 / w`. -/
def PerspectiveProjection3.unproject_vector (self : PerspectiveProjection3) (vector : Vector3) : Vector3 :=
  let projected_vector := vector.expand 1
  let unprojected_vector := self.spec.inverseMatrix.mulVector4 projected_vector
  unprojected_vector.contract.mulScalar (1 / unprojected_vector.w)

/-- The `PerspectiveFovProjection3<S>` of `src/projection.rs`. -/
structure PerspectiveFovProjection3 where
  spec : PerspectiveFovSpec
  matrix : Matrix4x4
deriving DecidableEq

/-- `PerspectiveFovProjection3::new`: caches the matrix built from the FOV
spec. -/
def PerspectiveFovProjection3.new (tan : ℚ → ℚ) (spec : PerspectiveFovSpec) : PerspectiveFovProjection3 :=
  PerspectiveFovProjection3.mk spec
    (Matrix4x4.from_perspective_fov tan spec.fovy spec.aspect spec.near spec.far)

/-- `PerspectiveFovProjection3::project_point` of `src/projection.rs` lines
584-586. -/
def PerspectiveFovProjection3.project_point (self : PerspectiveFovProjection3) (point : Point3) : Point3 :=
  Point3.from_homogeneous (self.matrix.mulVector4 point.to_homogeneous)

/-- `PerspectiveFovProjection3::project_vector` of `src/projection.rs` lines
590-595. -/
def PerspectiveFovProjection3.project_vector (self : PerspectiveFovProjection3) (vector : Vector3) : Vector3 :=
  let projected_vector := self.matrix.mulVector4 (vector.expand 1)
  let one_div_w := 1 / projected_vector.w
  (projected_vector.mulScalar one_div_w).contract

/-- `PerspectiveFovProjection3::unproject_point` of `src/projection.rs`
lines 602-636: converts its FOV spec to a plane-based spec and builds from
the converted spec the same closed-form inverse matrix as
`PerspectiveProjection3::unproject_point`. -/
def PerspectiveFovProjection3.unproject_point (tan : ℚ → ℚ) (self : PerspectiveFovProjection3)
    (point : Point3) : Point3 :=
  let spec := PerspectiveSpec.fromFov tan self.spec
  Point3.from_homogeneous (spec.inverseMatrix.mulVector4 point.to_homogeneous)

/-- `PerspectiveFovProjection3::unproject_vector` of `src/projection.rs`
lines 643-680. -/
def PerspectiveFovProjection3.unproject_vector (tan : ℚ → ℚ) (self : PerspectiveFovProjection3)
    (vector : Vector3) : Vector3 :=
  let spec := PerspectiveSpec.fromFov tan self.spec
  let projected_vector := vector.expand 1
  let unprojected_vector := spec.inverseMatrix.mulVector4 projected_vector
  unprojected_vector.contract.mulScalar (1 / unprojected_vector.w)

/-- The `OrthographicProjection3<S>` of `src/projection.rs`. -/
structure OrthographicProjection3 where
  spec : OrthographicSpec
  matrix : Matrix4x4
deriving DecidableEq

/-- `OrthographicProjection3::new`: caches the matrix built from the spec. -/
def OrthographicProjection3.new (spec : OrthographicSpec) : OrthographicProjection3 :=
  OrthographicProjection3.mk spec
    (Matrix4x4.from_orthographic spec.left spec.right spec.bottom spec.top spec.near spec.far)

/-- `OrthographicProjection3::project_point` of `src/projection.rs` lines
784-786. -/
def OrthographicProjection3.project_point (self : OrthographicProjection3) (point : Point3) : Point3 :=
  Point3.from_homogeneous (self.matrix.mulVector4 point.to_homogeneous)

/-- `OrthographicProjection3::project_vector` of `src/projection.rs` lines
790-792: expand with `w = 0`, multiply, contract; no division. -/
def OrthographicProjection3.project_vector (self : OrthographicProjection3) (vector : Vector3) : Vector3 :=
  (self.matrix.mulVector4 (vector.expand 0)).contract

/-- The closed-form inverse matrix built by `unproject_point` and
`unproject_vector` of `OrthographicProjection3` from six plane parameters
(`src/projection.rs` lines 799-832 and 839-872; `one_half` is the scalar
cast of `0.5`). -/
def OrthographicSpec.inverseMatrixOf (left right bottom top near far : ℚ) : Matrix4x4 :=
  let one_half : ℚ := 1 / 2
  Matrix4x4.mk
    (one_half * (right - left)) 0 0 0
    0 (one_half * (top - bottom)) 0 0
    0 0 (-one_half * (far - near)) 0
    (one_half * (left + right)) (one_half * (bottom + top)) (-one_half * (far + near)) 1

/-- `OrthographicProjection3::unproject_point` of `src/projection.rs` lines
799-832. -/
def OrthographicProjection3.unproject_point (self : OrthographicProjection3) (point : Point3) : Point3 :=
  let matrix_inverse := OrthographicSpec.inverseMatrixOf self.spec.left self.spec.right
    self.spec.bottom self.spec.top self.spec.near self.spec.far
  Point3.from_homogeneous (matrix_inverse.mulVector4 point.to_homogeneous)

/-- `OrthographicProjection3::unproject_vector` of `src/projection.rs` lines
839-872: expand with `w = 0`, multiply by the closed-form inverse matrix,
contract; no division. -/
def OrthographicProjection3.unproject_vector (self : OrthographicProjection3) (vector : Vector3) : Vector3 :=
  let matrix_inverse := OrthographicSpec.inverseMatrixOf self.spec.left self.spec.right
    self.spec.bottom self.spec.top self.spec.near self.spec.far
  (matrix_inverse.mulVector4 (vector.expand 0)).contract

/-- The `OrthographicFovProjection3<S>` of `src/projection.rs`. -/
structure OrthographicFovProjection3 where
  spec : OrthographicFovSpec
  matrix : Matrix4x4
deriving DecidableEq

/-- `OrthographicFovProjection3::new` of `src/projection.rs` lines 949-959:
caches `Matrix4x4::from_orthographic_fov` of the spec. -/
def OrthographicFovProjection3.new (tan : ℚ → ℚ) (spec : OrthographicFovSpec) : OrthographicFovProjection3 :=
  OrthographicFovProjection3.mk spec
    (Matrix4x4.from_orthographic_fov tan spec.fovy spec.aspect spec.near spec.far)

/-- `OrthographicFovProjection3::project_point` of `src/projection.rs` lines
975-977. -/
def OrthographicFovProjection3.project_point (self : OrthographicFovProjection3) (point : Point3) : Point3 :=
  Point3.from_homogeneous (self.matrix.mulVector4 point.to_homogeneous)

/-- `OrthographicFovProjection3::project_vector` of `src/projection.rs`
lines 981-983. -/
def OrthographicFovProjection3.project_vector (self : OrthographicFovProjection3) (vector : Vector3) : Vector3 :=
  (self.matrix.mulVector4 (vector.expand 0)).contract

/-- `OrthographicFovProjection3::unproject_point` of `src/projection.rs`
lines 990-1031: rebuilds the six planes from the FOV spec — width
`far * tan(fovy * one_half)` with the extent taken from the far plane,
height `width / aspect`, both split symmetrically — and then builds the same
closed-form inverse matrix as the plane-based orthographic unprojection. -/
def OrthographicFovProjection3.unproject_point (tan : ℚ → ℚ) (self : OrthographicFovProjection3)
    (point : Point3) : Point3 :=
  let one_half : ℚ := 1 / 2
  let width := self.spec.far * tan (self.spec.fovy * one_half)
  let height := width / self.spec.aspect
  let matrix_inverse := OrthographicSpec.inverseMatrixOf (-width * one_half) (width * one_half)
    (-height * one_half) (height * one_half) self.spec.near self.spec.far
  Point3.from_homogeneous (matrix_inverse.mulVector4 point.to_homogeneous)

/-- `OrthographicFovProjection3::unproject_vector` of `src/projection.rs`
lines 1038-1079: the same rebuilt planes and inverse matrix, applied to the
vector expanded with `w = 0` and contracted, with no division. -/
def OrthographicFovProjection3.unproject_vector (tan : ℚ → ℚ) (self : OrthographicFovProjection3)
    (vector : Vector3) : Vector3 :=
  let one_half : ℚ := 1 / 2
  let width := self.spec.far * tan (self.spec.fovy * one_half)
  let height := width / self.spec.aspect
  let matrix_inverse := OrthographicSpec.inverseMatrixOf (-width * one_half) (width * one_half)
    (-height * one_half) (height * one_half) self.spec.near self.spec.far
  (matrix_inverse.mulVector4 (vector.expand 0)).contract

/-- The `RotationMatrix2<S>` of `src/rotation.rs`: a 2x2 matrix constrained
by construction to be a rotation. -/
structure RotationMatrix2 where
  matrix : Matrix2x2
deriving DecidableEq

/-- `Rotation::inverse` for `RotationMatrix2` (`src/rotation.rs` lines
276-280) calls `self.matrix.inverse().unwrap()`; the embedding keeps the
optional result so that the reachability of the `None` branch — where the
source would panic — can be stated. -/
def RotationMatrix2.inverse (self : RotationMatrix2) : Option RotationMatrix2 :=
  (self.matrix.inverse).map RotationMatrix2.mk

/-- The `RotationMatrix3<S>` of `src/rotation.rs`. -/
structure RotationMatrix3 where
  matrix : Matrix3x3
deriving DecidableEq

/-- `Rotation::inverse` for `RotationMatrix3` (`src/rotation.rs` lines
517-521) calls `self.matrix.inverse().unwrap()`; the embedding keeps the
optional result so that the reachability of the `None` branch — where the
source would panic — can be stated. -/
def RotationMatrix3.inverse (self : RotationMatrix3) : Option RotationMatrix3 :=
  (self.matrix.inverse).map RotationMatrix3.mk

/-- `Rotation2::from_angle` for `RotationMatrix2` (`src/rotation.rs` lines
250-255): wraps `Matrix2::from_angle`. -/
def RotationMatrix2.from_angle (sinAngle cosAngle : ℚ) : RotationMatrix2 :=
  RotationMatrix2.mk (Matrix2x2.from_angle sinAngle cosAngle)

/-- `Rotation3::from_axis_angle` for `RotationMatrix3` (`src/rotation.rs`
lines 482-486): wraps `Matrix3::from_axis_angle`. -/
def RotationMatrix3.from_axis_angle (ax ay az sinAngle cosAngle : ℚ) : RotationMatrix3 :=
  RotationMatrix3.mk (Matrix3x3.from_axis_angle ax ay az sinAngle cosAngle)

/-- The perspective specification of the round-trip scenario in spec
section 8: `left = -4`, `right = 4`, `bottom = -2`, `top = 2`, `near = 1`,
`far = 100`. -/
def specRoundTrip : PerspectiveSpec := PerspectiveSpec.mk (-4) 4 (-2) 2 1 100

/-- A square-root assignment used on concrete inputs: it returns the true
square root on the perfect-square radicands reached there (1 and 9) and an
arbitrary value elsewhere; the concrete statements below do not depend on
the value chosen off the perfect squares. -/
def sqrtTable : ℚ → ℚ := fun q => if q = 1 then 1 else if q = 9 then 3 else if q = 24 then 4 else 0

section Lemmas

/-- The rational square root of Mathlib is exact on squares of nonnegative
rationals; this discharges the square-root-correctness hypotheses of the
theorems below at concrete inputs. -/
theorem rat_sqrt_mul_self (a : ℚ) (ha : 0 ≤ a) : Rat.sqrt (a * a) = a := by
  rw [Rat.sqrt_eq, abs_of_nonneg ha]

/-- A vector with zero dot product with itself is the zero vector (the
scalars form an ordered field, so a sum of squares vanishes only if each
term does). -/
theorem dot_self_eq_zero_iff (v : Vector3) : v.dot v = 0 ↔ v = Vector3.mk 0 0 0 := by
  constructor
  · intro h
    simp only [Vector3.dot] at h
    have hx : v.x = 0 := by nlinarith [mul_self_nonneg v.x, mul_self_nonneg v.y, mul_self_nonneg v.z]
    have hy : v.y = 0 := by nlinarith [mul_self_nonneg v.x, mul_self_nonneg v.y, mul_self_nonneg v.z]
    have hz : v.z = 0 := by nlinarith [mul_self_nonneg v.x, mul_self_nonneg v.y, mul_self_nonneg v.z]
    cases v
    simp_all
  · intro h
    subst h
    norm_num [Vector3.dot]

/-- The dot product of a vector with itself is nonnegative. -/
theorem dot_self_nonneg (v : Vector3) : 0 ≤ v.dot v := by
  have := sq_nonneg v.x
  have := sq_nonneg v.y
  have := sq_nonneg v.z
  simp only [Vector3.dot]
  nlinarith

end Lemmas

/-- C3: converting a `PerspectiveFovSpec {fovy, aspect, near, far}` into a
`PerspectiveSpec` yields exactly `top = near * tan(fovy / 2)`,
`bottom = -top`, `right = aspect * top`, `left = -right`, with `near` and
`far` carried over unchanged, for every scalar input spec and every choice
of the tangent collaborator. -/
theorem fov_to_perspective_spec_C3 (tan : ℚ → ℚ) (spec : PerspectiveFovSpec) :
    (PerspectiveSpec.fromFov tan spec).top = spec.near * tan (spec.fovy / 2)
      ∧ (PerspectiveSpec.fromFov tan spec).bottom = -(PerspectiveSpec.fromFov tan spec).top
      ∧ (PerspectiveSpec.fromFov tan spec).right = spec.aspect * (PerspectiveSpec.fromFov tan spec).top
      ∧ (PerspectiveSpec.fromFov tan spec).left = -(PerspectiveSpec.fromFov tan spec).right
      ∧ (PerspectiveSpec.fromFov tan spec).near = spec.near
      ∧ (PerspectiveSpec.fromFov tan spec).far = spec.far := by
  norm_num [PerspectiveSpec.fromFov]

/-- C5: the perspective `project_vector` expands the input with the
homogeneous component fixed at one, multiplies by the cached matrix, divides
by the projected `w` and contracts; the orthographic `project_vector`
expands with the homogeneous component fixed at zero, multiplies and
contracts with no division; and `project_point` for both goes through
homogeneous coordinates with a divide by the resulting `w`. -/
theorem project_through_homogeneous_C5 :
    (∀ (proj : PerspectiveProjection3) (v : Vector3),
        proj.project_vector v =
          Vector3.mk
            ((proj.matrix.mulVector4 (v.expand 1)).x / (proj.matrix.mulVector4 (v.expand 1)).w)
            ((proj.matrix.mulVector4 (v.expand 1)).y / (proj.matrix.mulVector4 (v.expand 1)).w)
            ((proj.matrix.mulVector4 (v.expand 1)).z / (proj.matrix.mulVector4 (v.expand 1)).w))
      ∧ (∀ (proj : OrthographicProjection3) (v : Vector3),
          proj.project_vector v = (proj.matrix.mulVector4 (v.expand 0)).contract)
      ∧ (∀ (proj : PerspectiveProjection3) (p : Point3),
          proj.project_point p =
            Point3.mk
              ((proj.matrix.mulVector4 p.to_homogeneous).x / (proj.matrix.mulVector4 p.to_homogeneous).w)
              ((proj.matrix.mulVector4 p.to_homogeneous).y / (proj.matrix.mulVector4 p.to_homogeneous).w)
              ((proj.matrix.mulVector4 p.to_homogeneous).z / (proj.matrix.mulVector4 p.to_homogeneous).w))
      ∧ (∀ (proj : OrthographicProjection3) (p : Point3),
          proj.project_point p =
            Point3.mk
              ((proj.matrix.mulVector4 p.to_homogeneous).x / (proj.matrix.mulVector4 p.to_homogeneous).w)
              ((proj.matrix.mulVector4 p.to_homogeneous).y / (proj.matrix.mulVector4 p.to_homogeneous).w)
              ((proj.matrix.mulVector4 p.to_homogeneous).z / (proj.matrix.mulVector4 p.to_homogeneous).w)) := by
  refine ⟨fun proj v => ?_, fun proj v => rfl, fun proj p => ?_, fun proj p => ?_⟩ <;>
    simp [PerspectiveProjection3.project_vector, PerspectiveProjection3.project_point,
      OrthographicProjection3.project_point, Point3.from_homogeneous, Vector4.contract,
      Vector4.mulScalar, Vector3.mulScalar, mul_one_div, div_eq_mul_inv]

/-- C8: unprojecting through a `PerspectiveFovProjection3` gives exactly the
same result as first converting its field-of-view spec into a plane-based
`PerspectiveSpec` and then unprojecting through the `PerspectiveProjection3`
built from it: both paths build the identical closed-form inverse matrix
from the converted spec's six plane parameters. -/
theorem fov_unproject_refines_C8 (tan : ℚ → ℚ) (proj : PerspectiveFovProjection3) :
    (∀ p : Point3,
        PerspectiveFovProjection3.unproject_point tan proj p =
          (PerspectiveProjection3.new (PerspectiveSpec.fromFov tan proj.spec)).unproject_point p)
      ∧ (∀ v : Vector3,
          PerspectiveFovProjection3.unproject_vector tan proj v =
            (PerspectiveProjection3.new (PerspectiveSpec.fromFov tan proj.spec)).unproject_vector v) :=
  ⟨fun _ => rfl, fun _ => rfl⟩

/-- C10: converting a point to homogeneous coordinates appends a unit
homogeneous component, and converting back contracts and divides by that
component; division by one is exact, so the round trip is the identity, for
`Point3` with `Vector4` and for `Point2` with `Vector3`. -/
theorem point_homogeneous_roundtrip_C10 :
    (∀ p : Point3, Point3.from_homogeneous p.to_homogeneous = p)
      ∧ (∀ p : Point2, Point2.from_homogeneous p.to_homogeneous = p) := by
  constructor
  · intro p
    cases p
    simp [Point3.from_homogeneous, Point3.to_homogeneous, Vector4.contract, Vector3.mulScalar]
  · intro p
    cases p
    simp [Point2.from_homogeneous, Point2.to_homogeneous, Vector3.contract, Vector2.mulScalar]

/-- C1: for the perspective projection built from the spec with planes
`(-4, 4, -2, 2, 1, 100)`, unprojecting the projection of any camera-space
point off the `z = 0` plane — in particular any interior point such as
`(1, 1, -5)` — returns the point exactly, hence in particular within the
claimed epsilon of `1e-6`; `unproject_point` applies the closed-form inverse
matrix built directly from the six spec parameters rather than generic 4x4
inversion. -/
theorem perspective_roundtrip_C1 (x y z : ℚ) (hz : z ≠ 0) :
    (PerspectiveProjection3.new specRoundTrip).unproject_point
        ((PerspectiveProjection3.new specRoundTrip).project_point (Point3.mk x y z)) =
      Point3.mk x y z := by
  have hw : -z ≠ 0 := neg_ne_zero.mpr hz
  simp only [PerspectiveProjection3.new, PerspectiveProjection3.project_point,
    PerspectiveProjection3.unproject_point, specRoundTrip, Matrix4x4.from_perspective,
    PerspectiveSpec.inverseMatrix, Matrix4x4.mulVector4, Point3.to_homogeneous,
    Point3.from_homogeneous, Vector4.contract, Vector3.mulScalar, Point3.mk.injEq]
  norm_num
  refine ⟨?_, ?_, ?_⟩ <;> field_simp <;> ring_nf
  · exact mul_inv_cancel_right₀ hz x
  · exact mul_inv_cancel_right₀ hz y

/-- C1 witness: the round trip at the interior point `(1, 1, -5)` of the
claim. -/
theorem perspective_roundtrip_C1_witness :
    (-5 : ℚ) ≠ 0 ∧
      (PerspectiveProjection3.new specRoundTrip).unproject_point
          ((PerspectiveProjection3.new specRoundTrip).project_point (Point3.mk 1 1 (-5))) =
        Point3.mk 1 1 (-5) :=
  ⟨by norm_num, perspective_roundtrip_C1 1 1 (-5) (by norm_num)⟩

/-- C4: `is_invertible` returns true exactly when the determinant is not
equal to the zero scalar, and `inverse` returns the empty result exactly
when the determinant is exactly zero — an exact zero test, so any nonzero
determinant, however tiny, reports invertible and inversion proceeds.
Stated for every square matrix engine of the library, sizes 1x1 through
4x4. -/
theorem inverse_exact_zero_test_C4 :
    (∀ m : Matrix1x1, m.is_invertible = true ↔ m.determinant ≠ 0)
      ∧ (∀ m : Matrix1x1, m.inverse = none ↔ m.determinant = 0)
      ∧ (∀ m : Matrix2x2, m.is_invertible = true ↔ m.determinant ≠ 0)
      ∧ (∀ m : Matrix2x2, m.inverse = none ↔ m.determinant = 0)
      ∧ (∀ m : Matrix3x3, m.is_invertible = true ↔ m.determinant ≠ 0)
      ∧ (∀ m : Matrix3x3, m.inverse = none ↔ m.determinant = 0)
      ∧ (∀ m : Matrix4x4, m.is_invertible = true ↔ m.determinant ≠ 0)
      ∧ (∀ m : Matrix4x4, m.inverse = none ↔ m.determinant = 0) := by
  refine ⟨fun m => ?_, fun m => ?_, fun m => ?_, fun m => ?_, fun m => ?_, fun m => ?_,
    fun m => ?_, fun m => ?_⟩
  · simp [Matrix1x1.is_invertible]
  · simp only [Matrix1x1.inverse]
    split_ifs with h <;> simp [h]
  · simp [Matrix2x2.is_invertible]
  · simp only [Matrix2x2.inverse]
    split_ifs with h <;> simp [h]
  · simp [Matrix3x3.is_invertible]
  · simp only [Matrix3x3.inverse]
    split_ifs with h <;> simp [h]
  · simp [Matrix4x4.is_invertible]
  · simp only [Matrix4x4.inverse]
    split_ifs with h <;> simp [h]

/-- C4 witness: a 2x2 matrix and a 4x4 matrix whose determinants are the
tiny but nonzero scalar `10⁻³⁰` are still reported invertible and their
inversion proceeds. -/
theorem inverse_exact_zero_test_C4_witness :
    (Matrix2x2.mk (1 / 10 ^ 30) 0 0 1).is_invertible = true
      ∧ (Matrix2x2.mk (1 / 10 ^ 30) 0 0 1).inverse ≠ none
      ∧ (Matrix4x4.mk (1 / 10 ^ 30) 0 0 0 0 1 0 0 0 0 1 0 0 0 0 1).is_invertible = true
      ∧ (Matrix4x4.mk (1 / 10 ^ 30) 0 0 0 0 1 0 0 0 0 1 0 0 0 0 1).inverse ≠ none :=
  ⟨(inverse_exact_zero_test_C4.2.2.1 (Matrix2x2.mk (1 / 10 ^ 30) 0 0 1)).mpr
      (by norm_num [Matrix2x2.determinant]),
    fun h =>
      (by norm_num [Matrix2x2.determinant] : (Matrix2x2.mk (1 / 10 ^ 30) 0 0 1).determinant ≠ 0)
        ((inverse_exact_zero_test_C4.2.2.2.1 (Matrix2x2.mk (1 / 10 ^ 30) 0 0 1)).mp h),
    (inverse_exact_zero_test_C4.2.2.2.2.2.2.1
        (Matrix4x4.mk (1 / 10 ^ 30) 0 0 0 0 1 0 0 0 0 1 0 0 0 0 1)).mpr
      (by norm_num [Matrix4x4.determinant]),
    fun h =>
      (by norm_num [Matrix4x4.determinant] :
          (Matrix4x4.mk (1 / 10 ^ 30) 0 0 0 0 1 0 0 0 0 1 0 0 0 0 1).determinant ≠ 0)
        ((inverse_exact_zero_test_C4.2.2.2.2.2.2.2
            (Matrix4x4.mk (1 / 10 ^ 30) 0 0 0 0 1 0 0 0 0 1 0 0 0 0 1)).mp h)⟩

/-- C7: the FOV-parameterized orthographic projection derives its frustum
extents from the far plane: the width is `far * tan(fovy / 2)`, the height
is `width / aspect`, both split symmetrically about the axis, and the
unprojection operations rebuild the planes from the spec with these same
formulas, agreeing with the plane-based orthographic projection built from
the derived planes. -/
theorem orthographic_fov_far_plane_C7 (tan : ℚ → ℚ) (spec : OrthographicFovSpec) :
    (Matrix4x4.from_orthographic_fov tan spec.fovy spec.aspect spec.near spec.far =
        (OrthographicProjection3.new (OrthographicSpec.mk
          (-(spec.far * tan (spec.fovy / 2) / 2)) (spec.far * tan (spec.fovy / 2) / 2)
          (-(spec.far * tan (spec.fovy / 2) / spec.aspect / 2))
          (spec.far * tan (spec.fovy / 2) / spec.aspect / 2) spec.near spec.far)).matrix)
      ∧ (∀ p : Point3,
          OrthographicFovProjection3.unproject_point tan (OrthographicFovProjection3.new tan spec) p =
            (OrthographicProjection3.new (OrthographicSpec.mk
              (-(spec.far * tan (spec.fovy / 2) / 2)) (spec.far * tan (spec.fovy / 2) / 2)
              (-(spec.far * tan (spec.fovy / 2) / spec.aspect / 2))
              (spec.far * tan (spec.fovy / 2) / spec.aspect / 2) spec.near spec.far)).unproject_point p)
      ∧ (∀ v : Vector3,
          OrthographicFovProjection3.unproject_vector tan (OrthographicFovProjection3.new tan spec) v =
            (OrthographicProjection3.new (OrthographicSpec.mk
              (-(spec.far * tan (spec.fovy / 2) / 2)) (spec.far * tan (spec.fovy / 2) / 2)
              (-(spec.far * tan (spec.fovy / 2) / spec.aspect / 2))
              (spec.far * tan (spec.fovy / 2) / spec.aspect / 2) spec.near spec.far)).unproject_vector v) := by
  refine ⟨?_, fun p => ?_, fun v => ?_⟩ <;>
    simp only [Matrix4x4.from_orthographic_fov, Matrix4x4.from_orthographic,
      OrthographicFovProjection3.unproject_point, OrthographicFovProjection3.unproject_vector,
      OrthographicFovProjection3.new, OrthographicProjection3.new,
      OrthographicProjection3.unproject_point, OrthographicProjection3.unproject_vector,
      OrthographicSpec.inverseMatrixOf, Matrix4x4.mulVector4, Point3.to_homogeneous,
      Point3.from_homogeneous, Vector4.contract, Vector3.mulScalar, Vector3.expand,
      Vector4.mulScalar, mul_one_div, Matrix4x4.mk.injEq, Point3.mk.injEq, Vector3.mk.injEq] <;>
    repeat' apply And.intro <;>
    ring_nf

/-- C9: `RotationMatrix2::inverse` and `RotationMatrix3::inverse` unwrap the
optional result of the generic matrix inverse; whenever the underlying
matrix has nonzero determinant the optional result is present, so the
unwrap's empty branch — the only panic site — is unreachable; and the
determinant is exactly one (hence nonzero) for the matrices built by the
`from_angle` and `from_axis_angle` constructors whenever the angle
collaborator satisfies `sin² + cos² = 1` and the supplied axis is unit
length. -/
theorem rotation_inverse_no_panic_C9 :
    (∀ r : RotationMatrix2, r.matrix.determinant ≠ 0 → r.inverse.isSome = true)
      ∧ (∀ r : RotationMatrix3, r.matrix.determinant ≠ 0 → r.inverse.isSome = true)
      ∧ (∀ sinA cosA : ℚ, sinA * sinA + cosA * cosA = 1 →
          (RotationMatrix2.from_angle sinA cosA).matrix.determinant = 1)
      ∧ (∀ ax ay az sinA cosA : ℚ, ax * ax + ay * ay + az * az = 1 →
          sinA * sinA + cosA * cosA = 1 →
          (RotationMatrix3.from_axis_angle ax ay az sinA cosA).matrix.determinant = 1) := by
  refine ⟨fun r hdet => ?_, fun r hdet => ?_, fun sinA cosA h => ?_, fun ax ay az sinA cosA hn hq => ?_⟩
  · simp [RotationMatrix2.inverse, Matrix2x2.inverse, hdet]
  · simp [RotationMatrix3.inverse, Matrix3x3.inverse, hdet]
  · simp only [RotationMatrix2.from_angle, Matrix2x2.from_angle, Matrix2x2.determinant]
    linear_combination h
  · simp only [RotationMatrix3.from_axis_angle, Matrix3x3.from_axis_angle, Matrix3x3.determinant]
    linear_combination
      ((1 - cosA) * ((2 + cosA) + (ax * ax + ay * ay + az * az - 1) * (1 - cosA) * (1 + cosA))) * hn +
        ((ax * ax + ay * ay + az * az) * (1 + (ax * ax + ay * ay + az * az - 1) * (1 - cosA))) * hq

/-- C9 witness: the identity rotation matrix has nonzero determinant and its
inverse is present, so the unwrap succeeds there. -/
theorem rotation_inverse_no_panic_C9_witness :
    (RotationMatrix2.mk (Matrix2x2.mk 1 0 0 1)).matrix.determinant ≠ 0
      ∧ (RotationMatrix2.mk (Matrix2x2.mk 1 0 0 1)).inverse.isSome = true :=
  ⟨by norm_num [Matrix2x2.determinant],
    rotation_inverse_no_panic_C9.1 (RotationMatrix2.mk (Matrix2x2.mk 1 0 0 1))
      (by norm_num [Matrix2x2.determinant])⟩

/-- C2 counterexample: at `v1 = (1,0,0)` and `v2 = (1,2,2)` the normalized
cosine is `1/3`, far from both `1` and `-1`, so the claim's case analysis
prescribes the general-case quaternion `from_sv(k + v1·v2, v1×v2)`
normalized — a quaternion with nonzero vector part; but the unnormalized
dot product `v1·v2` equals `1`, so the source's first branch fires and
returns the identity quaternion.  The square-root assignment used agrees
with the true square root on the perfect-square radicands `1` and `9`
reached by the claim's case analysis; the disagreement between the two
procedures does not depend on the value assigned to the non-square radicand
`24`, since the source's result here involves no square root at all. -/
theorem between_vectors_counterexample_C2 :
    Quaternion.between_vectors sqrtTable (Vector3.mk 1 0 0) (Vector3.mk 1 2 2) = Quaternion.one
      ∧ betweenVectorsClaim sqrtTable (Vector3.mk 1 0 0) (Vector3.mk 1 2 2) ≠
        Quaternion.between_vectors sqrtTable (Vector3.mk 1 0 0) (Vector3.mk 1 2 2) := by
  constructor
  · norm_num [Quaternion.between_vectors, Vector3.dot]
  · norm_num [betweenVectorsClaim, Quaternion.between_vectors, Vector3.dot, Vector3.normalize,
      Vector3.magnitude_squared, Vector3.divScalar, sqrtTable, Vector3.cross, Quaternion.normalize,
      Quaternion.from_sv, Quaternion.one, Quaternion.magnitude_squared, Quaternion.divScalar,
      Quaternion.mk.injEq, Vector3.mk.injEq]

/-- C2 (amended): `between_vectors(v1, v2)` selects among exactly three
cases, the first determined by the unnormalized dot product `v1 · v2` and
the others by the normalized cosine: when `v1 · v2` is approximately `1`
(for unit vectors, the same-direction test `cosθ ≈ 1`) it returns the
identity quaternion; when `cosθ = (v1 · v2) / √(|v1|²|v2|²)` is
approximately `-1` it returns the 180-degree pure-vector quaternion about
the normalized `v1 × x̂`, falling back to `v1 × ŷ` when that cross product
degenerates; otherwise it returns `from_sv(k + v1 · v2, v1 × v2)` with
`k = √(|v1|²|v2|²)`, normalized before use. -/
theorem between_vectors_cases_C2 (sqrt : ℚ → ℚ) (v1 v2 : Vector3) :
    (v1.dot v2 = 1 → Quaternion.between_vectors sqrt v1 v2 = Quaternion.one)
      ∧ (v1.dot v2 ≠ 1 →
          v1.dot v2 / sqrt (v1.magnitude_squared * v2.magnitude_squared) = -1 →
          Quaternion.between_vectors sqrt v1 v2 =
            Quaternion.from_sv 0
              ((if (v1.cross Vector3.unit_x).magnitude_squared = 0 then v1.cross Vector3.unit_y
                else v1.cross Vector3.unit_x).normalize sqrt))
      ∧ (v1.dot v2 ≠ 1 →
          v1.dot v2 / sqrt (v1.magnitude_squared * v2.magnitude_squared) ≠ -1 →
          Quaternion.between_vectors sqrt v1 v2 =
            (Quaternion.from_sv (sqrt (v1.magnitude_squared * v2.magnitude_squared) + v1.dot v2)
              (v1.cross v2)).normalize sqrt) := by
  refine ⟨fun h1 => ?_, fun h1 h2 => ?_, fun h1 h2 => ?_⟩
  · simp [Quaternion.between_vectors, h1]
  · simp only [Quaternion.between_vectors, if_neg h1, if_pos h2]
  · simp only [Quaternion.between_vectors, if_neg h1, if_neg h2]

/-- C2 witness: the first (amended) case at the concrete input
`v1 = v2 = (1, 0, 0)`, whose dot product is exactly one. -/
theorem between_vectors_cases_C2_witness :
    Vector3.dot (Vector3.mk 1 0 0) (Vector3.mk 1 0 0) = 1
      ∧ Quaternion.between_vectors sqrtTable (Vector3.mk 1 0 0) (Vector3.mk 1 0 0) = Quaternion.one :=
  ⟨by norm_num [Vector3.dot],
    (between_vectors_cases_C2 sqrtTable (Vector3.mk 1 0 0) (Vector3.mk 1 0 0)).1
      (by norm_num [Vector3.dot])⟩

/-- C6: for every nonzero vector `v` and every square-root collaborator that
is exact on squares, `between_vectors(v, v)` returns the identity rotation:
either the dot product is exactly one and the first branch returns the
identity directly, or the general case builds `from_sv(2|v|², 0)` whose
normalization is exactly the identity quaternion. -/
theorem between_vectors_self_C6 (sqrt : ℚ → ℚ)
    (hsqrt : ∀ a : ℚ, 0 ≤ a → sqrt (a * a) = a)
    (v : Vector3) (hv : v ≠ Vector3.mk 0 0 0) :
    Quaternion.between_vectors sqrt v v = Quaternion.one := by
  have hm : v.dot v ≠ 0 := fun h => hv ((dot_self_eq_zero_iff v).mp h)
  have hm0 : 0 ≤ v.dot v := dot_self_nonneg v
  have hk : sqrt (v.magnitude_squared * v.magnitude_squared) = v.dot v := by
    simpa [Vector3.magnitude_squared] using hsqrt (v.dot v) hm0
  by_cases h1 : v.dot v = 1
  · simp [Quaternion.between_vectors, h1]
  · have h2 : ¬(v.dot v / sqrt (v.magnitude_squared * v.magnitude_squared) = -1) := by
      rw [hk, div_self hm]
      norm_num
    have hcross : v.cross v = Vector3.mk 0 0 0 := by
      simp only [Vector3.cross, Vector3.mk.injEq]
      refine ⟨by ring, by ring, by ring⟩
    have hd2 : v.dot v + v.dot v ≠ 0 := by
      intro h
      exact hm (by linarith)
    simp only [Quaternion.between_vectors, if_neg h1, if_neg h2]
    rw [hk, hcross]
    have harg : Quaternion.magnitude_squared
        (Quaternion.from_sv (v.dot v + v.dot v) (Vector3.mk 0 0 0)) =
        (v.dot v + v.dot v) * (v.dot v + v.dot v) := by
      simp [Quaternion.magnitude_squared, Quaternion.from_sv, Vector3.dot]
    simp only [Quaternion.normalize, harg, hsqrt (v.dot v + v.dot v) (by linarith)]
    simp [Quaternion.divScalar, Vector3.divScalar, Quaternion.from_sv, Quaternion.one,
      div_self hd2]

/-- C6 witness: the round trip at the concrete nonzero non-unit vector
`(1, 2, 2)`, with the exact rational square root as the collaborator. -/
theorem between_vectors_self_C6_witness :
    Vector3.mk 1 2 2 ≠ Vector3.mk 0 0 0
      ∧ Quaternion.between_vectors Rat.sqrt (Vector3.mk 1 2 2) (Vector3.mk 1 2 2) =
        Quaternion.one :=
  ⟨by norm_num [Vector3.mk.injEq],
    between_vectors_self_C6 Rat.sqrt (fun a ha => rat_sqrt_mul_self a ha) (Vector3.mk 1 2 2)
      (by norm_num [Vector3.mk.injEq])⟩

end SimpleCgmath
